import Mathlib

/-!
Shallow embedding of `src/src/applications/osgearth_manip/osgearth_manip.cpp`,
the osgearth_manip demo application. Event-handler methods become pure
functions on explicit state; the library facilities the file delegates to
(osgEarth GeoMath, osg camera projection matrices, scene loading) appear as
abstract parameters or small data types, as noted on each definition.
Scalars are modelled as rationals.
-/

namespace OsgearthManip

/-- Event types of osgGA::GUIEventAdapter used by this file (library enum):
key presses, per-frame events, and everything else. -/
inductive EventType
  | KEYDOWN
  | FRAME
  | OTHER
deriving DecidableEq, Repr

/-- A GUI event as the handlers inspect it: its type (`ea.getEventType()`)
and its key (`ea.getKey()`). -/
structure Event where
  eventType : EventType
  key : Char
deriving DecidableEq, Repr

/-- EarthManipulator tether modes referenced by the file (library enum). -/
inductive TetherMode
  | TETHER_CENTER
  | TETHER_CENTER_AND_ROTATION
  | TETHER_CENTER_AND_HEADING
deriving DecidableEq, Repr

/-- The EarthManipulator settings flags this file's toggle handlers read and
write: azimuth lock, arc viewpoint transitions, throwing, terrain
avoidance, and the tether mode. -/
structure Settings where
  lockAzimuthWhilePanning : Bool
  arcViewpointTransitions : Bool
  throwingEnabled : Bool
  terrainAvoidanceEnabled : Bool
  tetherMode : TetherMode
deriving DecidableEq, Repr

/-- osgEarth::Viewpoint as constructed in this file: a name, a focal point
(an osg::Vec3d of longitude, latitude, altitude), heading, pitch, range. -/
structure Viewpoint where
  name : String
  focalPoint : ℚ × ℚ × ℚ
  heading : ℚ
  pitch : ℚ
  range : ℚ
deriving DecidableEq, Repr

/-- The six preset viewpoints `VPs` (source lines 111-118). -/
def VPs : List Viewpoint :=
  [⟨"Africa", (0, 0, 0), 0, -90, 10000000⟩,
   ⟨"California", (-121, 34, 0), 0, -90, 6000000⟩,
   ⟨"Europe", (0, 45, 0), 0, -90, 4000000⟩,
   ⟨"Washington DC", (-77, 38, 0), 0, -90, 1000000⟩,
   ⟨"Australia", (135, -20, 0), 0, -90, 2000000⟩,
   ⟨"Boston", (-71096936/1000000, 42332771/1000000, 0), 0, -90, 100000⟩]

/-- Placeholder viewpoint used as the out-of-range default of list
indexing; never selected by an in-range key. -/
def noVP : Viewpoint := ⟨"", (0, 0, 0), 0, 0, 0⟩

/-- Output of FlyToViewpointHandler::handle: the setViewpoint call it made
(viewpoint and transition duration, if any), whether a redraw was
requested, and the bool it returned. -/
structure FlyOut where
  call : Option (Viewpoint × ℚ)
  redraw : Bool
  handled : Bool
deriving DecidableEq, Repr

/-- FlyToViewpointHandler::handle (source lines 129-137): on KEYDOWN with a
key in '1'..'6', fly to `VPs[key - '1']` over 4.0 seconds and request a
redraw; always return false. -/
def FlyToViewpointHandler.handle (ev : Event) : FlyOut :=
  if ev.eventType = EventType.KEYDOWN ∧ '1' ≤ ev.key ∧ ev.key ≤ '6' then
    { call := some (VPs.getD (ev.key.toNat - '1'.toNat) noVP, 4),
      redraw := true, handled := false }
  else
    { call := none, redraw := false, handled := false }

/-- Output of the four boolean toggle handlers: the updated settings,
whether a redraw was requested, and the bool returned. -/
structure HandlerOut where
  settings : Settings
  redraw : Bool
  handled : Bool
deriving DecidableEq, Repr

/-- LockAzimuthHandler::handle (source lines 153-163). -/
def LockAzimuthHandler.handle (key : Char) (ev : Event) (s : Settings) :
    HandlerOut :=
  if ev.eventType = EventType.KEYDOWN ∧ ev.key = key then
    { settings := { s with lockAzimuthWhilePanning := !s.lockAzimuthWhilePanning },
      redraw := true, handled := true }
  else
    { settings := s, redraw := false, handled := false }

/-- ToggleArcViewpointTransitionsHandler::handle (source lines 185-195). -/
def ToggleArcViewpointTransitionsHandler.handle (key : Char) (ev : Event)
    (s : Settings) : HandlerOut :=
  if ev.eventType = EventType.KEYDOWN ∧ ev.key = key then
    { settings := { s with arcViewpointTransitions := !s.arcViewpointTransitions },
      redraw := true, handled := true }
  else
    { settings := s, redraw := false, handled := false }

/-- ToggleThrowingHandler::handle (source lines 218-228). -/
def ToggleThrowingHandler.handle (key : Char) (ev : Event) (s : Settings) :
    HandlerOut :=
  if ev.eventType = EventType.KEYDOWN ∧ ev.key = key then
    { settings := { s with throwingEnabled := !s.throwingEnabled },
      redraw := true, handled := true }
  else
    { settings := s, redraw := false, handled := false }

/-- ToggleCollisionHandler::handle (source lines 250-260). -/
def ToggleCollisionHandler.handle (key : Char) (ev : Event) (s : Settings) :
    HandlerOut :=
  if ev.eventType = EventType.KEYDOWN ∧ ev.key = key then
    { settings := { s with terrainAvoidanceEnabled := !s.terrainAvoidanceEnabled },
      redraw := true, handled := true }
  else
    { settings := s, redraw := false, handled := false }

/-- The frustum parameters ToggleProjMatrix saves: vertical field of view,
aspect, near and far plane (its fields _vfov, _ar, _zn, _zf). -/
structure FrustumParams where
  vfov : ℚ
  ar : ℚ
  zn : ℚ
  zf : ℚ
deriving DecidableEq, Repr

/-- The camera's projection matrix at the level of detail the handler
inspects: a perspective matrix with its frustum parameters, an
orthographic matrix with its extents and planes, or a matrix of either
shape that was built from indeterminate (never-assigned) values.
Entry (3,3) is 0 exactly for perspective matrices. -/
inductive ProjMatrix
  | persp (p : FrustumParams)
  | perspUndef
  | ortho (l r b t zn zf : ℚ)
  | orthoUndef
deriving DecidableEq, Repr

/-- proj(3,3): 0 for a perspective-shaped matrix, 1 for an orthographic
one. -/
def ProjMatrix.m33 : ProjMatrix → ℚ
  | persp _ => 0
  | perspUndef => 0
  | ortho _ _ _ _ _ _ => 1
  | orthoUndef => 1

/-- osg::Matrix::getPerspective: recovers the frustum parameters of a
perspective matrix; on a matrix that was built from indeterminate values
the recovered values are themselves indeterminate (none). -/
def ProjMatrix.getPerspective : ProjMatrix → Option FrustumParams
  | persp p => some p
  | _ => none

/-- Output of ToggleProjMatrix::handle: the updated saved frustum fields
(none while never assigned), the camera's new projection matrix, the
redraw flag and the bool returned. -/
structure ProjOut where
  saved : Option FrustumParams
  cam : ProjMatrix
  redraw : Bool
  handled : Bool
deriving DecidableEq, Repr

/-- The fields _vfov, _ar, _zn, _zf at construction: the ToggleProjMatrix
constructor (source lines 279-282) does not initialize them. -/
def ToggleProjMatrix.initSaved : Option FrustumParams := none

/-- ToggleProjMatrix::handle (source lines 284-304): on KEYDOWN with the
bound key, if proj(3,3) == 0 save the perspective parameters and install
an orthographic projection with extents (-1,1,-1,1) and the saved
near/far; otherwise install a perspective projection from the saved
parameters (indeterminate if never assigned). -/
def ToggleProjMatrix.handle (key : Char) (ev : Event)
    (saved : Option FrustumParams) (cam : ProjMatrix) : ProjOut :=
  if ev.eventType = EventType.KEYDOWN ∧ ev.key = key then
    if cam.m33 = 0 then
      match cam.getPerspective with
      | some p =>
        { saved := some p, cam := ProjMatrix.ortho (-1) 1 (-1) 1 p.zn p.zf,
          redraw := true, handled := true }
      | none =>
        { saved := none, cam := ProjMatrix.orthoUndef,
          redraw := true, handled := true }
    else
      match saved with
      | some p =>
        { saved := saved, cam := ProjMatrix.persp p,
          redraw := true, handled := true }
      | none =>
        { saved := saved, cam := ProjMatrix.perspUndef,
          redraw := true, handled := true }
  else
    { saved := saved, cam := cam, redraw := false, handled := false }

/-- The node the Simulator animates: either the node loaded from the
--model file (identified abstractly by a handle) or the default sphere
created by AnnotationUtils::createSphere(250.0, Vec4(1,.7,.4,1)). -/
inductive SimNode
  | loaded (id : Nat)
  | sphere (radius : ℚ) (color : ℚ × ℚ × ℚ × ℚ)
deriving DecidableEq, Repr

/-- Simulator constructor, model substitution (source lines 326-329): a
null model is replaced by the default sphere of radius 250. -/
def Simulator.resolveModel : Option Nat → SimNode
  | some m => SimNode.loaded m
  | none => SimNode.sphere 250 (1, 7/10, 4/10, 1)

/-- The node the manipulator can be tethered to in this program: the
Simulator's GeoTransform (_xform). -/
inductive TetherTarget
  | simXform
deriving DecidableEq, Repr

/-- The calls the Simulator makes on the EarthManipulator, with their
arguments (recording transition durations and tether parameters). -/
inductive ManipCall
  | tether (node : Option TetherTarget) (duration : ℚ)
  | tetherAngles (node : Option TetherTarget)
      (duration heading pitch range : ℚ)
  | viewpointCall (vp : Viewpoint)
deriving DecidableEq, Repr

/-- The EarthManipulator state this file reads or writes: its settings,
tether node and current viewpoint. -/
structure ManipState where
  settings : Settings
  tetherNode : Option TetherTarget
  viewpoint : Viewpoint
deriving DecidableEq, Repr

/-- An osgEarth::GeoPoint as built by the Simulator: x (longitude in
degrees), y (latitude in degrees), altitude. -/
structure GeoPointQ where
  x : ℚ
  y : ℚ
  alt : ℚ
deriving DecidableEq, Repr

/-- An osg::Quat built from an angle and an axis, as the Simulator does. -/
structure QuatE where
  angle : ℚ
  axis : ℚ × ℚ × ℚ
deriving DecidableEq, Repr

/-- Modelled from the spec: the library-provided math the Simulator
delegates to — osg::PI (an abstract constant here), GeoMath::interpolate
(the spherical/great-circle interpolation between two lat/lon pairs in
radians, yielding the (lat, lon) at parameter t), and GeoMath::bearing
(the bearing from the first point to the second). osgEarth/GeoMath is not
under src, so these stay abstract parameters of the embedding. -/
structure GeoMathE where
  pi : ℚ
  interpolate : ℚ → ℚ → ℚ → ℚ → ℚ → ℚ × ℚ
  bearing : ℚ → ℚ → ℚ → ℚ → ℚ

/-- D2R (source line 47): osg::PI/180. -/
def d2r (g : GeoMathE) (x : ℚ) : ℚ := g.pi / 180 * x

/-- R2D (source line 48): 180/osg::PI. -/
def r2d (g : GeoMathE) (x : ℚ) : ℚ := 180 / g.pi * x

/-- C truncation toward zero, used by fmod. -/
def truncQ (x : ℚ) : ℤ := if 0 ≤ x then Int.floor x else Int.ceil x

/-- C fmod: x - m * trunc(x/m). -/
def fmodQ (x m : ℚ) : ℚ := x - m * (truncQ (x / m) : ℚ)

/-- The Simulator's state: manipulator state, the path endpoints (fields
_lat0, _lon0, _lat1, _lon1), the positions set on the GeoTransform and
label, the attitude set on the PositionAttitudeTransform, and the trace
of manipulator calls made so far. -/
structure SimState where
  manip : ManipState
  lat0 : ℚ
  lon0 : ℚ
  lat1 : ℚ
  lon1 : ℚ
  xformPos : Option GeoPointQ
  patAttitude : Option QuatE
  labelPos : Option GeoPointQ
  trace : List ManipCall
deriving DecidableEq, Repr

/-- Simulator constructor field initialization (source line 324):
_lat0(55.0), _lon0(45.0), _lat1(-55.0), _lon1(-45.0); the scene-graph
assembly is library work tracked only through the positions above. -/
def Simulator.initState (manip : ManipState) : SimState :=
  { manip := manip, lat0 := 55, lon0 := 45, lat1 := -55, lon1 := -45,
    xformPos := none, patAttitude := none, labelPos := none, trace := [] }

/-- Simulator::handle (source lines 353-389). `timeS` stands for
osg::Timer::instance()->time_s(). Returns the new state and the bool the
method returns. -/
def Simulator.handle (g : GeoMathE) (timeS : ℚ) (s : SimState) (ev : Event) :
    SimState × Bool :=
  if ev.eventType = EventType.FRAME then
    let t := fmodQ timeS 600 / 600
    let ll := g.interpolate (d2r g s.lat0) (d2r g s.lon0)
                            (d2r g s.lat1) (d2r g s.lon1) t
    let p : GeoPointQ := ⟨r2d g ll.2, r2d g ll.1, 2500⟩
    let b := g.bearing (d2r g s.lat1) (d2r g s.lon1) ll.1 ll.2
    ({ s with xformPos := some p,
              patAttitude := some ⟨b, (0, 0, 1)⟩,
              labelPos := some p }, false)
  else if ev.eventType = EventType.KEYDOWN then
    if ev.key = 't' then
      let newNode : Option TetherTarget :=
        if s.manip.tetherNode.isSome then none else some TetherTarget.simXform
      let vp := { s.manip.viewpoint with range := 5000 }
      ({ s with
          manip :=
            { settings :=
                { s.manip.settings with
                    tetherMode := TetherMode.TETHER_CENTER_AND_HEADING },
              tetherNode := newNode,
              viewpoint := vp },
          trace := s.trace ++
            [ManipCall.tether newNode 2, ManipCall.viewpointCall vp] }, true)
    else if ev.key = 'T' then
      let newNode : Option TetherTarget :=
        if s.manip.tetherNode.isSome then none else some TetherTarget.simXform
      ({ s with
          manip :=
            { s.manip with
                settings :=
                  { s.manip.settings with
                      tetherMode := TetherMode.TETHER_CENTER_AND_HEADING },
                tetherNode := newNode },
          trace := s.trace ++
            [ManipCall.tetherAngles newNode 2 45 (-45) 5000] }, true)
    else (s, true)
  else (s, false)

/-- osg::ArgumentParser::read(flag, param): the parameter following the
first occurrence of the flag, when one follows. -/
def readStringArg : List String → String → Option String
  | [], _ => none
  | [_], _ => none
  | a :: b :: rest, flag =>
    if a = flag then some b else readStringArg (b :: rest) flag

/-- What main did: exit code, messages printed, and which setup steps ran. -/
structure MainResult where
  exitCode : Int
  usagePrinted : Bool
  loadWarningPrinted : Bool
  viewerConstructed : Bool
  simulatorInstalled : Bool
  handlersInstalled : Bool
  sceneDataSet : Bool
  simModel : Option SimNode
deriving DecidableEq, Repr

/-- main (source lines 403-481). `args` are the command-line arguments
after the program name, so argc == 1 corresponds to args = []; the flag
test models osg::ArgumentParser::read("--help"). `loadResult` abstracts
MapNodeHelper().load (the earth node, or none on failure), and
`readNodeFile` abstracts osgDB::readNodeFile on the --model file. -/
def mainE (args : List String) (loadResult : Option Nat)
    (readNodeFile : String → Option Nat) : MainResult :=
  if "--help" ∈ args ∨ args = [] then
    { exitCode := 0, usagePrinted := true, loadWarningPrinted := false,
      viewerConstructed := false, simulatorInstalled := false,
      handlersInstalled := false, sceneDataSet := false, simModel := none }
  else
    match loadResult with
    | none =>
      { exitCode := -1, usagePrinted := false, loadWarningPrinted := true,
        viewerConstructed := true, simulatorInstalled := false,
        handlersInstalled := false, sceneDataSet := false, simModel := none }
    | some _ =>
      let model := (readStringArg args "--model").bind readNodeFile
      { exitCode := 0, usagePrinted := false, loadWarningPrinted := false,
        viewerConstructed := true, simulatorInstalled := true,
        handlersInstalled := true, sceneDataSet := true,
        simModel := some (Simulator.resolveModel model) }

/-- C1: for every invocation of main whose arguments contain "--help", and
for every invocation with no arguments at all, the program prints the
usage message and returns exit code 0 without constructing the viewer or
loading any scene. -/
theorem c1_help_or_no_args (args : List String) (load : Option Nat)
    (rnf : String → Option Nat)
    (h : "--help" ∈ args ∨ args = []) :
    (mainE args load rnf).exitCode = 0 ∧
    (mainE args load rnf).usagePrinted = true ∧
    (mainE args load rnf).viewerConstructed = false ∧
    (mainE args load rnf).simulatorInstalled = false ∧
    (mainE args load rnf).handlersInstalled = false ∧
    (mainE args load rnf).sceneDataSet = false ∧
    (mainE args load rnf).simModel = none := by
  simp [mainE, h]

/-- Witness for C1 at the concrete invocation ["--help"]. -/
theorem c1_help_or_no_args_w :
    ("--help" ∈ (["--help"] : List String) ∨ (["--help"] : List String) = []) ∧
    (mainE ["--help"] (some 1) (fun _ => none)).exitCode = 0 ∧
    (mainE ["--help"] (some 1) (fun _ => none)).usagePrinted = true ∧
    (mainE ["--help"] (some 1) (fun _ => none)).viewerConstructed = false ∧
    (mainE ["--help"] (some 1) (fun _ => none)).simulatorInstalled = false ∧
    (mainE ["--help"] (some 1) (fun _ => none)).handlersInstalled = false ∧
    (mainE ["--help"] (some 1) (fun _ => none)).sceneDataSet = false ∧
    (mainE ["--help"] (some 1) (fun _ => none)).simModel = none :=
  ⟨Or.inl (by simp),
   c1_help_or_no_args ["--help"] (some 1) (fun _ => none) (Or.inl (by simp))⟩

/-- C2: for every invocation in which loading the earth scene yields a
null node, main prints the warning and returns exit code -1, and no scene
graph, simulator, or event handlers are set up after the failure. -/
theorem c2_load_failure (args : List String) (rnf : String → Option Nat)
    (h1 : "--help" ∉ args) (h2 : args ≠ []) :
    (mainE args none rnf).exitCode = -1 ∧
    (mainE args none rnf).loadWarningPrinted = true ∧
    (mainE args none rnf).simulatorInstalled = false ∧
    (mainE args none rnf).handlersInstalled = false ∧
    (mainE args none rnf).sceneDataSet = false ∧
    (mainE args none rnf).simModel = none := by
  simp [mainE, h1, h2]

/-- Witness for C2 at the concrete invocation ["scene.earth"]. -/
theorem c2_load_failure_w :
    ("--help" ∉ (["scene.earth"] : List String)) ∧
    ((["scene.earth"] : List String) ≠ []) ∧
    (mainE ["scene.earth"] none (fun _ => none)).exitCode = -1 ∧
    (mainE ["scene.earth"] none (fun _ => none)).loadWarningPrinted = true ∧
    (mainE ["scene.earth"] none (fun _ => none)).simulatorInstalled = false ∧
    (mainE ["scene.earth"] none (fun _ => none)).handlersInstalled = false ∧
    (mainE ["scene.earth"] none (fun _ => none)).sceneDataSet = false ∧
    (mainE ["scene.earth"] none (fun _ => none)).simModel = none :=
  ⟨by simp, by simp,
   c2_load_failure ["scene.earth"] (fun _ => none) (by simp) (by simp)⟩

/-- C8: the --model flag is optional: when present and the file loads, the
Simulator animates the loaded node; when the resulting model is null (flag
absent or load failed), the Simulator substitutes the default sphere of
radius 250.0; construction succeeds (main completes with exit code 0)
either way. -/
theorem c8_optional_model (args : List String) (n : Nat)
    (rnf : String → Option Nat)
    (h1 : "--help" ∉ args) (h2 : args ≠ []) :
    (∀ f m, readStringArg args "--model" = some f → rnf f = some m →
      (mainE args (some n) rnf).simModel = some (SimNode.loaded m)) ∧
    ((readStringArg args "--model").bind rnf = none →
      (mainE args (some n) rnf).simModel =
        some (SimNode.sphere 250 (1, 7/10, 4/10, 1))) ∧
    (mainE args (some n) rnf).exitCode = 0 ∧
    (mainE args (some n) rnf).simulatorInstalled = true := by
  refine ⟨?_, ?_, ?_, ?_⟩
  · intro f m hf hm
    simp [mainE, h1, h2, hf, hm, Simulator.resolveModel]
  · intro hnone
    simp [mainE, h1, h2, hnone, Simulator.resolveModel]
  · simp [mainE, h1, h2]
  · simp [mainE, h1, h2]

/-- Witness for C8: one invocation with a loadable --model file, and one
without the flag. -/
theorem c8_optional_model_w :
    (mainE ["scene.earth", "--model", "car.osg"] (some 1)
      (fun f => if f = "car.osg" then some 7 else none)).simModel =
      some (SimNode.loaded 7) ∧
    (mainE ["scene.earth"] (some 1) (fun _ => none)).simModel =
      some (SimNode.sphere 250 (1, 7/10, 4/10, 1)) ∧
    (mainE ["scene.earth"] (some 1) (fun _ => none)).exitCode = 0 := by
  have h1 := c8_optional_model ["scene.earth", "--model", "car.osg"] 1
    (fun f => if f = "car.osg" then some 7 else none) (by simp) (by simp)
  have h2 := c8_optional_model ["scene.earth"] 1 (fun _ => none)
    (by simp) (by simp)
  refine ⟨h1.1 "car.osg" 7 (by simp [readStringArg]) (by simp), ?_, h2.2.2.1⟩
  exact h2.2.1 (by simp [readStringArg])

/-- C3: each of the four boolean toggle handlers at the key main binds it
to ('u' azimuth lock, 'a' arc viewpoint transitions, 'z' throwing, 'k'
terrain avoidance): a KEYDOWN with the bound key inverts exactly that one
setting and returns true; any other event leaves the settings unchanged
and returns false; pressing the bound key twice restores the setting
(each toggle is an involution). -/
theorem c3_toggle_handlers (s : Settings) (ev : Event) :
    ((ev = ⟨EventType.KEYDOWN, 'u'⟩ →
       LockAzimuthHandler.handle 'u' ev s =
         ⟨{ s with lockAzimuthWhilePanning := !s.lockAzimuthWhilePanning },
          true, true⟩) ∧
     (ev ≠ ⟨EventType.KEYDOWN, 'u'⟩ →
       LockAzimuthHandler.handle 'u' ev s = ⟨s, false, false⟩) ∧
     (LockAzimuthHandler.handle 'u' ⟨EventType.KEYDOWN, 'u'⟩
       (LockAzimuthHandler.handle 'u' ⟨EventType.KEYDOWN, 'u'⟩
         s).settings).settings = s) ∧
    ((ev = ⟨EventType.KEYDOWN, 'a'⟩ →
       ToggleArcViewpointTransitionsHandler.handle 'a' ev s =
         ⟨{ s with arcViewpointTransitions := !s.arcViewpointTransitions },
          true, true⟩) ∧
     (ev ≠ ⟨EventType.KEYDOWN, 'a'⟩ →
       ToggleArcViewpointTransitionsHandler.handle 'a' ev s =
         ⟨s, false, false⟩) ∧
     (ToggleArcViewpointTransitionsHandler.handle 'a' ⟨EventType.KEYDOWN, 'a'⟩
       (ToggleArcViewpointTransitionsHandler.handle 'a'
         ⟨EventType.KEYDOWN, 'a'⟩ s).settings).settings = s) ∧
    ((ev = ⟨EventType.KEYDOWN, 'z'⟩ →
       ToggleThrowingHandler.handle 'z' ev s =
         ⟨{ s with throwingEnabled := !s.throwingEnabled }, true, true⟩) ∧
     (ev ≠ ⟨EventType.KEYDOWN, 'z'⟩ →
       ToggleThrowingHandler.handle 'z' ev s = ⟨s, false, false⟩) ∧
     (ToggleThrowingHandler.handle 'z' ⟨EventType.KEYDOWN, 'z'⟩
       (ToggleThrowingHandler.handle 'z' ⟨EventType.KEYDOWN, 'z'⟩
         s).settings).settings = s) ∧
    ((ev = ⟨EventType.KEYDOWN, 'k'⟩ →
       ToggleCollisionHandler.handle 'k' ev s =
         ⟨{ s with terrainAvoidanceEnabled := !s.terrainAvoidanceEnabled },
          true, true⟩) ∧
     (ev ≠ ⟨EventType.KEYDOWN, 'k'⟩ →
       ToggleCollisionHandler.handle 'k' ev s = ⟨s, false, false⟩) ∧
     (ToggleCollisionHandler.handle 'k' ⟨EventType.KEYDOWN, 'k'⟩
       (ToggleCollisionHandler.handle 'k' ⟨EventType.KEYDOWN, 'k'⟩
         s).settings).settings = s) := by
  obtain ⟨et, k⟩ := ev
  have hneg : ∀ key : Char, (⟨et, k⟩ : Event) ≠ ⟨EventType.KEYDOWN, key⟩ →
      ¬(et = EventType.KEYDOWN ∧ k = key) := by
    intro key hne hc
    exact hne (by simp [hc.1, hc.2])
  refine ⟨⟨?_, ?_, ?_⟩, ⟨?_, ?_, ?_⟩, ⟨?_, ?_, ?_⟩, ⟨?_, ?_, ?_⟩⟩
  · intro h
    injection h with h1 h2
    subst h1 h2
    simp [LockAzimuthHandler.handle]
  · intro h
    simp only [LockAzimuthHandler.handle, if_neg (hneg 'u' h)]
  · cases s
    simp [LockAzimuthHandler.handle]
  · intro h
    injection h with h1 h2
    subst h1 h2
    simp [ToggleArcViewpointTransitionsHandler.handle]
  · intro h
    simp only [ToggleArcViewpointTransitionsHandler.handle,
               if_neg (hneg 'a' h)]
  · cases s
    simp [ToggleArcViewpointTransitionsHandler.handle]
  · intro h
    injection h with h1 h2
    subst h1 h2
    simp [ToggleThrowingHandler.handle]
  · intro h
    simp only [ToggleThrowingHandler.handle, if_neg (hneg 'z' h)]
  · cases s
    simp [ToggleThrowingHandler.handle]
  · intro h
    injection h with h1 h2
    subst h1 h2
    simp [ToggleCollisionHandler.handle]
  · intro h
    simp only [ToggleCollisionHandler.handle, if_neg (hneg 'k' h)]
  · cases s
    simp [ToggleCollisionHandler.handle]

/-- Witness for C3: a press of 'u' toggles the azimuth lock on a concrete
settings value, and a FRAME event leaves it unchanged. -/
theorem c3_toggle_handlers_w :
    LockAzimuthHandler.handle 'u' ⟨EventType.KEYDOWN, 'u'⟩
      ⟨false, true, false, false, TetherMode.TETHER_CENTER⟩ =
      ⟨⟨true, true, false, false, TetherMode.TETHER_CENTER⟩, true, true⟩ ∧
    ToggleThrowingHandler.handle 'z' ⟨EventType.FRAME, 'z'⟩
      ⟨false, true, false, false, TetherMode.TETHER_CENTER⟩ =
      ⟨⟨false, true, false, false, TetherMode.TETHER_CENTER⟩, false, false⟩ := by
  have h1 := c3_toggle_handlers
    ⟨false, true, false, false, TetherMode.TETHER_CENTER⟩
    ⟨EventType.KEYDOWN, 'u'⟩
  have h2 := c3_toggle_handlers
    ⟨false, true, false, false, TetherMode.TETHER_CENTER⟩
    ⟨EventType.FRAME, 'z'⟩
  exact ⟨h1.1.1 rfl, h2.2.2.1.2.1 (by decide)⟩

/-- C5: for every KEYDOWN whose key lies in '1'..'6',
FlyToViewpointHandler calls setViewpoint with the preset VPs[key - '1']
and a 4.0-second transition and requests a redraw (the six presets being
Africa, California, Europe, Washington DC, Australia, Boston in that
order); for a key outside '1'..'6' and for every non-KEYDOWN event, no
viewpoint change is made. -/
theorem c5_fly_to_viewpoint (ev : Event) :
    (ev.eventType = EventType.KEYDOWN → '1' ≤ ev.key → ev.key ≤ '6' →
      FlyToViewpointHandler.handle ev =
        ⟨some (VPs.getD (ev.key.toNat - '1'.toNat) noVP, 4), true, false⟩) ∧
    (¬(ev.eventType = EventType.KEYDOWN ∧ '1' ≤ ev.key ∧ ev.key ≤ '6') →
      FlyToViewpointHandler.handle ev = ⟨none, false, false⟩) ∧
    VPs.getD 0 noVP = ⟨"Africa", (0, 0, 0), 0, -90, 10000000⟩ ∧
    VPs.getD 1 noVP = ⟨"California", (-121, 34, 0), 0, -90, 6000000⟩ ∧
    VPs.getD 2 noVP = ⟨"Europe", (0, 45, 0), 0, -90, 4000000⟩ ∧
    VPs.getD 3 noVP = ⟨"Washington DC", (-77, 38, 0), 0, -90, 1000000⟩ ∧
    VPs.getD 4 noVP = ⟨"Australia", (135, -20, 0), 0, -90, 2000000⟩ ∧
    VPs.getD 5 noVP =
      ⟨"Boston", (-71096936/1000000, 42332771/1000000, 0), 0, -90, 100000⟩ := by
  refine ⟨?_, ?_, rfl, rfl, rfl, rfl, rfl, rfl⟩
  · intro h1 h2 h3
    simp [FlyToViewpointHandler.handle, h1, h2, h3]
  · intro h
    simp only [FlyToViewpointHandler.handle, if_neg h]

/-- Witness for C5: pressing '3' flies to Europe over 4 seconds; pressing
'x' changes nothing. -/
theorem c5_fly_to_viewpoint_w :
    FlyToViewpointHandler.handle ⟨EventType.KEYDOWN, '3'⟩ =
      ⟨some (⟨"Europe", (0, 45, 0), 0, -90, 4000000⟩, 4), true, false⟩ ∧
    FlyToViewpointHandler.handle ⟨EventType.KEYDOWN, 'x'⟩ =
      ⟨none, false, false⟩ := by
  have h1 := c5_fly_to_viewpoint ⟨EventType.KEYDOWN, '3'⟩
  have h2 := c5_fly_to_viewpoint ⟨EventType.KEYDOWN, 'x'⟩
  refine ⟨?_, h2.2.1 (by decide)⟩
  have := h1.1 rfl (by decide) (by decide)
  simpa [VPs, noVP] using this

/-- For a nonnegative dividend, C fmod by 600 equals 600 times the
fractional part of x/600. -/
theorem fmodQ_nonneg_eq (x : ℚ) (hx : 0 ≤ x) :
    fmodQ x 600 = 600 * Int.fract (x / 600) := by
  have hx6 : 0 ≤ x / 600 := by positivity
  rw [fmodQ, truncQ, if_pos hx6, Int.fract]
  field_simp

/-- For a nonnegative dividend, fmod x 600 / 600 is the fractional part of
x/600. -/
theorem fmodQ_div_eq_fract (x : ℚ) (hx : 0 ≤ x) :
    fmodQ x 600 / 600 = Int.fract (x / 600) := by
  rw [fmodQ_nonneg_eq x hx]
  field_simp

/-- C fmod by 600 is periodic with period 600 on nonnegative inputs. -/
theorem fmodQ_periodic (x : ℚ) (hx : 0 ≤ x) :
    fmodQ (x + 600) 600 = fmodQ x 600 := by
  have hx6 : (0:ℚ) ≤ x + 600 := by linarith
  rw [fmodQ_nonneg_eq x hx, fmodQ_nonneg_eq (x + 600) hx6]
  have : (x + 600) / 600 = x / 600 + 1 := by field_simp
  rw [this, Int.fract_add_one]

/-- C4: on every FRAME event the Simulator places the object at the
spherical interpolation between (lat 55, lon 45) and (lat -55, lon -45)
at parameter t = fmod(time, 600)/600 — which lies in [0, 1), with a
600-second period — at altitude 2500, and sets the attitude from the
bearing from the destination endpoint to the interpolated point. -/
theorem c4_frame_interpolation (g : GeoMathE) (timeS : ℚ) (s : SimState)
    (ev : Event)
    (hlat0 : s.lat0 = 55) (hlon0 : s.lon0 = 45)
    (hlat1 : s.lat1 = -55) (hlon1 : s.lon1 = -45)
    (ht : 0 ≤ timeS) (hev : ev.eventType = EventType.FRAME) :
    (Simulator.handle g timeS s ev).1.xformPos =
      some ⟨r2d g (g.interpolate (d2r g 55) (d2r g 45) (d2r g (-55))
              (d2r g (-45)) (fmodQ timeS 600 / 600)).2,
            r2d g (g.interpolate (d2r g 55) (d2r g 45) (d2r g (-55))
              (d2r g (-45)) (fmodQ timeS 600 / 600)).1, 2500⟩ ∧
    (Simulator.handle g timeS s ev).1.labelPos =
      (Simulator.handle g timeS s ev).1.xformPos ∧
    (Simulator.handle g timeS s ev).1.patAttitude =
      some ⟨g.bearing (d2r g (-55)) (d2r g (-45))
              (g.interpolate (d2r g 55) (d2r g 45) (d2r g (-55))
                (d2r g (-45)) (fmodQ timeS 600 / 600)).1
              (g.interpolate (d2r g 55) (d2r g 45) (d2r g (-55))
                (d2r g (-45)) (fmodQ timeS 600 / 600)).2, (0, 0, 1)⟩ ∧
    0 ≤ fmodQ timeS 600 / 600 ∧ fmodQ timeS 600 / 600 < 1 ∧
    fmodQ (timeS + 600) 600 = fmodQ timeS 600 := by
  refine ⟨?_, ?_, ?_, ?_, ?_, fmodQ_periodic timeS ht⟩
  · simp [Simulator.handle, hev, hlat0, hlon0, hlat1, hlon1]
  · simp [Simulator.handle, hev, hlat0, hlon0, hlat1, hlon1]
  · simp [Simulator.handle, hev, hlat0, hlon0, hlat1, hlon1]
  · rw [fmodQ_div_eq_fract timeS ht]; exact Int.fract_nonneg _
  · rw [fmodQ_div_eq_fract timeS ht]; exact Int.fract_lt_one _

/-- C6: on every KEYDOWN with key 't' the Simulator sets the tether mode
to TETHER_CENTER_AND_HEADING, toggles the tether node between none and
its own transform with a 2.0-second transition, and sets the current
viewpoint's range to 5000; pressing 't' twice returns the tether node to
its original untethered state. -/
theorem c6_tether_toggle (g : GeoMathE) (timeS : ℚ) (s : SimState) :
    (Simulator.handle g timeS s ⟨EventType.KEYDOWN, 't'⟩).2 = true ∧
    (Simulator.handle g timeS s
      ⟨EventType.KEYDOWN, 't'⟩).1.manip.settings.tetherMode =
        TetherMode.TETHER_CENTER_AND_HEADING ∧
    (Simulator.handle g timeS s ⟨EventType.KEYDOWN, 't'⟩).1.manip.tetherNode =
      (if s.manip.tetherNode.isSome then none
       else some TetherTarget.simXform) ∧
    (Simulator.handle g timeS s ⟨EventType.KEYDOWN, 't'⟩).1.manip.viewpoint =
      { s.manip.viewpoint with range := 5000 } ∧
    (Simulator.handle g timeS s ⟨EventType.KEYDOWN, 't'⟩).1.trace =
      s.trace ++
        [ManipCall.tether (if s.manip.tetherNode.isSome then none
            else some TetherTarget.simXform) 2,
         ManipCall.viewpointCall { s.manip.viewpoint with range := 5000 }] ∧
    (s.manip.tetherNode = none →
      (Simulator.handle g timeS
        (Simulator.handle g timeS s ⟨EventType.KEYDOWN, 't'⟩).1
        ⟨EventType.KEYDOWN, 't'⟩).1.manip.tetherNode = none) := by
  refine ⟨by simp [Simulator.handle], by simp [Simulator.handle],
          by simp [Simulator.handle], by simp [Simulator.handle],
          by simp [Simulator.handle], ?_⟩
  intro h
  simp [Simulator.handle, h]

/-- C9: Simulator::handle returns true for every KEYDOWN whatever the
key; and for a KEYDOWN whose key is neither 't' nor 'T' it returns true
while leaving the whole Simulator state (manipulator settings, tether
node, path endpoints, positions, trace) unchanged. -/
theorem c9_sim_keydown_handled (g : GeoMathE) (timeS : ℚ) (s : SimState)
    (k : Char) :
    (Simulator.handle g timeS s ⟨EventType.KEYDOWN, k⟩).2 = true ∧
    (k ≠ 't' → k ≠ 'T' →
      (Simulator.handle g timeS s ⟨EventType.KEYDOWN, k⟩).1 = s) := by
  by_cases h1 : k = 't'
  · subst h1
    exact ⟨by simp [Simulator.handle], fun hk _ => absurd rfl hk⟩
  · by_cases h2 : k = 'T'
    · subst h2
      exact ⟨by simp [Simulator.handle], fun _ hk => absurd rfl hk⟩
    · exact ⟨by simp [Simulator.handle, h1, h2],
             fun _ _ => by simp [Simulator.handle, h1, h2]⟩

/-- Concrete manipulator state used by witnesses. -/
def wManip : ManipState :=
  ⟨⟨false, true, false, false, TetherMode.TETHER_CENTER⟩, none,
   ⟨"home", (0, 0, 0), 0, -45, 100000⟩⟩

/-- Concrete instantiation of the abstract library math used by
witnesses. -/
def wGeo : GeoMathE :=
  ⟨355/113,
   fun la1 lo1 la2 lo2 t => (la1 + t * (la2 - la1), lo1 + t * (lo2 - lo1)),
   fun la1 lo1 la2 lo2 => la2 - la1 + lo2 - lo1⟩

/-- Concrete Simulator state used by witnesses. -/
def wSim : SimState := Simulator.initState wManip

/-- Witness for C4 at time 150 s on a freshly constructed Simulator. -/
theorem c4_frame_interpolation_w :
    (0:ℚ) ≤ 150 ∧
    (Simulator.handle wGeo 150 wSim ⟨EventType.FRAME, ' '⟩).1.xformPos =
      some ⟨r2d wGeo (wGeo.interpolate (d2r wGeo 55) (d2r wGeo 45)
              (d2r wGeo (-55)) (d2r wGeo (-45)) (fmodQ 150 600 / 600)).2,
            r2d wGeo (wGeo.interpolate (d2r wGeo 55) (d2r wGeo 45)
              (d2r wGeo (-55)) (d2r wGeo (-45)) (fmodQ 150 600 / 600)).1,
            2500⟩ ∧
    0 ≤ fmodQ 150 600 / 600 ∧ fmodQ 150 600 / 600 < 1 ∧
    fmodQ (150 + 600) 600 = fmodQ 150 600 := by
  have h := c4_frame_interpolation wGeo 150 wSim ⟨EventType.FRAME, ' '⟩
    rfl rfl rfl rfl (by norm_num) rfl
  exact ⟨by norm_num, h.1, h.2.2.2.1, h.2.2.2.2.1, h.2.2.2.2.2⟩

/-- Witness for C6: from the untethered initial state, one 't' press
tethers to the Simulator transform and a second press untethers. -/
theorem c6_tether_toggle_w :
    (Simulator.handle wGeo 0 wSim ⟨EventType.KEYDOWN, 't'⟩).1.manip.tetherNode =
      some TetherTarget.simXform ∧
    (Simulator.handle wGeo 0
      (Simulator.handle wGeo 0 wSim ⟨EventType.KEYDOWN, 't'⟩).1
      ⟨EventType.KEYDOWN, 't'⟩).1.manip.tetherNode = none := by
  have h := c6_tether_toggle wGeo 0 wSim
  refine ⟨?_, h.2.2.2.2.2 rfl⟩
  have h3 := h.2.2.1
  simpa [wSim, Simulator.initState, wManip] using h3

/-- Witness for C9: pressing 'z' is reported handled and changes no
Simulator state. -/
theorem c9_sim_keydown_handled_w :
    (Simulator.handle wGeo 0 wSim ⟨EventType.KEYDOWN, 'z'⟩).2 = true ∧
    (Simulator.handle wGeo 0 wSim ⟨EventType.KEYDOWN, 'z'⟩).1 = wSim := by
  have h := c9_sim_keydown_handled wGeo 0 wSim 'z'
  exact ⟨h.1, h.2 (by decide) (by decide)⟩

/-- C7: on every KEYDOWN with key 'o' ToggleProjMatrix toggles the
projection: a perspective matrix (entry (3,3) = 0) has its frustum
parameters saved and an orthographic projection with extents (-1,1,-1,1)
and the saved near/far installed; otherwise a perspective projection
built from the saved parameters is installed; the projection type flips
on every press. -/
theorem c7_toggle_proj (ev : Event) (saved : Option FrustumParams)
    (cam : ProjMatrix) (hev : ev = ⟨EventType.KEYDOWN, 'o'⟩) :
    (∀ p, cam = ProjMatrix.persp p →
      ToggleProjMatrix.handle 'o' ev saved cam =
        ⟨some p, ProjMatrix.ortho (-1) 1 (-1) 1 p.zn p.zf, true, true⟩) ∧
    (cam.m33 ≠ 0 →
      (ToggleProjMatrix.handle 'o' ev saved cam).cam =
        (match saved with
          | some p => ProjMatrix.persp p
          | none => ProjMatrix.perspUndef) ∧
      (ToggleProjMatrix.handle 'o' ev saved cam).saved = saved) ∧
    (cam.m33 = 0 →
      ((ToggleProjMatrix.handle 'o' ev saved cam).cam).m33 ≠ 0) ∧
    (cam.m33 ≠ 0 →
      ((ToggleProjMatrix.handle 'o' ev saved cam).cam).m33 = 0) := by
  subst hev
  cases cam <;> cases saved <;>
    simp [ToggleProjMatrix.handle, ProjMatrix.m33, ProjMatrix.getPerspective]

/-- Witness for C7: from a concrete perspective camera the press installs
the orthographic matrix and saves the parameters; from an orthographic
camera with saved parameters it restores the perspective matrix. -/
theorem c7_toggle_proj_w :
    ToggleProjMatrix.handle 'o' ⟨EventType.KEYDOWN, 'o'⟩ none
      (ProjMatrix.persp ⟨45, 4/3, 1, 10000⟩) =
      ⟨some ⟨45, 4/3, 1, 10000⟩, ProjMatrix.ortho (-1) 1 (-1) 1 1 10000,
       true, true⟩ ∧
    (ToggleProjMatrix.handle 'o' ⟨EventType.KEYDOWN, 'o'⟩
      (some ⟨45, 4/3, 1, 10000⟩) (ProjMatrix.ortho (-1) 1 (-1) 1 1 10000)).cam =
      ProjMatrix.persp ⟨45, 4/3, 1, 10000⟩ := by
  have h1 := c7_toggle_proj ⟨EventType.KEYDOWN, 'o'⟩ none
    (ProjMatrix.persp ⟨45, 4/3, 1, 10000⟩) rfl
  have h2 := c7_toggle_proj ⟨EventType.KEYDOWN, 'o'⟩
    (some ⟨45, 4/3, 1, 10000⟩) (ProjMatrix.ortho (-1) 1 (-1) 1 1 10000) rfl
  exact ⟨h1.1 ⟨45, 4/3, 1, 10000⟩ rfl, (h2.2.1 (by decide)).1⟩

/-- C10: the stored frustum parameters are not initialized at
construction and are assigned only by a perspective-to-orthographic
switch; the switch back to perspective reads them, so the first 'o' press
is well-defined only when the camera's projection matrix is perspective
(entry (3,3) = 0) at that moment — pressed first on an orthographic
camera it builds a perspective matrix from indeterminate values. -/
theorem c10_uninitialized_frustum (ev : Event) (saved : Option FrustumParams)
    (cam : ProjMatrix) :
    ToggleProjMatrix.initSaved = none ∧
    ((ToggleProjMatrix.handle 'o' ev saved cam).saved ≠ saved →
      ev = ⟨EventType.KEYDOWN, 'o'⟩ ∧ cam.m33 = 0) ∧
    (∀ p, cam = ProjMatrix.persp p →
      (ToggleProjMatrix.handle 'o' ⟨EventType.KEYDOWN, 'o'⟩
        ToggleProjMatrix.initSaved cam).cam ≠ ProjMatrix.perspUndef ∧
      (ToggleProjMatrix.handle 'o' ⟨EventType.KEYDOWN, 'o'⟩
        ToggleProjMatrix.initSaved cam).cam ≠ ProjMatrix.orthoUndef) ∧
    (cam.m33 ≠ 0 →
      (ToggleProjMatrix.handle 'o' ⟨EventType.KEYDOWN, 'o'⟩
        ToggleProjMatrix.initSaved cam).cam = ProjMatrix.perspUndef) := by
  obtain ⟨et, k⟩ := ev
  by_cases h : et = EventType.KEYDOWN ∧ k = 'o'
  · obtain ⟨h1, h2⟩ := h
    subst h1 h2
    cases cam <;> cases saved <;>
      simp [ToggleProjMatrix.handle, ToggleProjMatrix.initSaved,
            ProjMatrix.m33, ProjMatrix.getPerspective]
  · refine ⟨rfl, ?_, ?_, ?_⟩
    · intro hch
      simp only [ToggleProjMatrix.handle, if_neg h] at hch
      exact absurd rfl hch
    · intro p hp
      subst hp
      simp [ToggleProjMatrix.handle, ToggleProjMatrix.initSaved,
            ProjMatrix.m33, ProjMatrix.getPerspective]
    · intro hm
      cases cam <;>
        simp_all [ToggleProjMatrix.handle, ToggleProjMatrix.initSaved,
                  ProjMatrix.m33, ProjMatrix.getPerspective]

/-- Witness for C10: a first press on a perspective camera is
well-defined; a first press on an orthographic camera builds the
perspective matrix from indeterminate values. -/
theorem c10_uninitialized_frustum_w :
    (ToggleProjMatrix.handle 'o' ⟨EventType.KEYDOWN, 'o'⟩
      ToggleProjMatrix.initSaved
      (ProjMatrix.persp ⟨45, 4/3, 1, 10000⟩)).cam ≠ ProjMatrix.perspUndef ∧
    (ToggleProjMatrix.handle 'o' ⟨EventType.KEYDOWN, 'o'⟩
      ToggleProjMatrix.initSaved
      (ProjMatrix.ortho (-1) 1 (-1) 1 1 10000)).cam =
        ProjMatrix.perspUndef := by
  have h1 := c10_uninitialized_frustum ⟨EventType.KEYDOWN, 'o'⟩ none
    (ProjMatrix.persp ⟨45, 4/3, 1, 10000⟩)
  have h2 := c10_uninitialized_frustum ⟨EventType.KEYDOWN, 'o'⟩ none
    (ProjMatrix.ortho (-1) 1 (-1) 1 1 10000)
  exact ⟨(h1.2.2.1 ⟨45, 4/3, 1, 10000⟩ rfl).1, h2.2.2.2 (by decide)⟩

end OsgearthManip
